import Mathlib

/-!
Shallow embedding of the VelvetPOS cart and checkout engine
(src/client/js/pos.js, class POSManager).

Quantities, stock and quantity deltas are modelled as integers,
monetary values (price, discount, cash received, tax rate) as rationals.
The DOM-sourced checkout inputs (discount input, cash-received input,
payment-method radio, customer select) are modelled as fields of an
explicit `POSState`.  The transaction-submission collaborator
(`apiRequest('/api/transactions', 'POST', …)`) is modelled as a function
argument producing a `SubmissionResult`.
-/

namespace VelvetPOS

/-- Product snapshot as supplied by the catalog (`this.products` entries). -/
structure Product where
  id : String
  name : String
  price : ℚ
  stock : ℤ
deriving DecidableEq

/-- One cart line as pushed by `addToCart`:
`{id, name, price, quantity, maxStock}`. -/
structure CartItem where
  id : String
  name : String
  price : ℚ
  quantity : ℤ
  maxStock : ℤ
deriving DecidableEq

/-- Payment method radio value (`input[name="payment"]`). -/
inductive PaymentMethod
  | cash
  | card
deriving DecidableEq

/-- Validation failures the engine can signal (surfaced as toasts in the
source; `CheckoutInProgress` is listed in the error model of the spec). -/
inductive PosError
  | InsufficientStock
  | EmptyCart
  | InsufficientFunds
  | CheckoutInProgress
deriving DecidableEq

/-- Engine state: the cart array plus the DOM-held checkout inputs. -/
structure POSState where
  cart : List CartItem
  discount : ℚ
  cashReceived : ℚ
  paymentMethod : PaymentMethod
  customerId : String
deriving DecidableEq

/-- Update the first element satisfying `p` (JS `Array.prototype.find`
returns the first match and the source mutates that object in place). -/
def updateFirst (p : α → Bool) (f : α → α) : List α → List α
  | [] => []
  | x :: xs => if p x then f x :: xs else x :: updateFirst p f xs

/-- POSManager.addToCart(product) (pos.js lines 188-211).
Returns the new cart and an optional error. -/
def addToCart (cart : List CartItem) (product : Product) : List CartItem × Option PosError :=
  match cart.find? (fun item => item.id == product.id) with
  | some existingItem =>
      if existingItem.quantity < product.stock then
        (updateFirst (fun item => item.id == product.id)
          (fun item => { item with quantity := item.quantity + 1 }) cart, none)
      else
        (cart, some PosError.InsufficientStock)
  | none =>
      (cart ++ [{ id := product.id, name := product.name, price := product.price,
                  quantity := 1, maxStock := product.stock }], none)

/-- POSManager.removeFromCart(productId) (pos.js lines 229-233). -/
def removeFromCart (cart : List CartItem) (productId : String) : List CartItem :=
  cart.filter (fun item => item.id != productId)

/-- POSManager.updateCartItemQuantity(productId, change) (pos.js lines 213-227). -/
def updateCartItemQuantity (cart : List CartItem) (productId : String) (change : ℤ) :
    List CartItem × Option PosError :=
  match cart.find? (fun i => i.id == productId) with
  | none => (cart, none)
  | some item =>
      let newQuantity := item.quantity + change
      if newQuantity ≤ 0 then
        (removeFromCart cart productId, none)
      else if newQuantity ≤ item.maxStock then
        (updateFirst (fun i => i.id == productId)
          (fun i => { i with quantity := newQuantity }) cart, none)
      else
        (cart, some PosError.InsufficientStock)

/-- POSManager.clearCart() (pos.js lines 235-239): `this.cart = []` and a
re-render; the DOM input fields are not touched. -/
def clearCart (s : POSState) : POSState :=
  { s with cart := [] }

/-- Subtotal reduce shared by updateTotals and calculateTotal:
`this.cart.reduce((sum, item) => sum + (item.price * item.quantity), 0)`. -/
def subtotal (cart : List CartItem) : ℚ :=
  cart.foldl (fun sum item => sum + item.price * (item.quantity : ℚ)) 0

/-- POSManager.updateTotals() computation (pos.js lines 294-299):
returns `(subtotal, tax, total)` as displayed. -/
def computeTotals (cart : List CartItem) (discount taxRate : ℚ) : ℚ × ℚ × ℚ :=
  let sub := subtotal cart
  let taxableAmount := sub - discount
  let tax := taxableAmount * taxRate
  (sub, tax, taxableAmount + tax)

/-- POSManager.calculateTotal() (pos.js lines 324-330). -/
def calculateTotal (cart : List CartItem) (discount taxRate : ℚ) : ℚ :=
  let sub := subtotal cart
  let taxableAmount := sub - discount
  let tax := taxableAmount * taxRate
  taxableAmount + tax

/-- One line of the transaction payload built in checkout(). -/
structure TransactionLine where
  id : String
  name : String
  price : ℚ
  quantity : ℤ
deriving DecidableEq

/-- The transactionData object POSTed to /api/transactions (pos.js lines 351-364). -/
structure TransactionRequest where
  items : List TransactionLine
  customer_id : String
  payment_method : PaymentMethod
  cash_amount : ℚ
  card_amount : ℚ
  discount : ℚ
  staff_name : String
deriving DecidableEq

/-- Outcome of the transaction-submission collaborator: a response with
`success = true` (carrying `change_due`), a response with
`success = false` (its error is thrown and caught), or a thrown
network/HTTP error from apiRequest. -/
inductive SubmissionResult
  | success (changeDue : ℚ)
  | failure (error : String)
  | networkError (error : String)
deriving DecidableEq

/-- True exactly when the submission reported `success = true`. -/
def SubmissionResult.isSuccess : SubmissionResult → Bool
  | .success _ => true
  | _ => false

/-- How a checkout() call ends: a validation toast before any request, a
completed transaction, or a caught submission error. -/
inductive CheckoutResult
  | validationError (e : PosError)
  | completed (changeDue : ℚ)
  | failed (msg : String)
deriving DecidableEq

/-- The transactionData built from the current state (pos.js lines 338-364). -/
def buildTransactionRequest (s : POSState) (taxRate : ℚ) (staffName : String) :
    TransactionRequest :=
  { items := s.cart.map (fun item =>
      { id := item.id, name := item.name, price := item.price, quantity := item.quantity }),
    customer_id := s.customerId,
    payment_method := s.paymentMethod,
    cash_amount := if s.paymentMethod = PaymentMethod.cash then s.cashReceived else 0,
    card_amount := if s.paymentMethod = PaymentMethod.card
      then calculateTotal s.cart s.discount taxRate else 0,
    discount := s.discount,
    staff_name := staffName }

/-- POSManager.checkout() (pos.js lines 332-392).  Returns the resulting
state, how the call ended, and the request that was submitted (`none`
when validation failed before any request was issued). -/
def checkout (s : POSState) (taxRate : ℚ) (staffName : String)
    (respond : TransactionRequest → SubmissionResult) :
    POSState × CheckoutResult × Option TransactionRequest :=
  if s.cart.length = 0 then
    (s, CheckoutResult.validationError PosError.EmptyCart, none)
  else
    let cashAmount := if s.paymentMethod = PaymentMethod.cash then s.cashReceived else 0
    if s.paymentMethod = PaymentMethod.cash ∧
        cashAmount < calculateTotal s.cart s.discount taxRate then
      (s, CheckoutResult.validationError PosError.InsufficientFunds, none)
    else
      let req := buildTransactionRequest s taxRate staffName
      match respond req with
      | SubmissionResult.success changeDue =>
          (clearCart s, CheckoutResult.completed changeDue, some req)
      | SubmissionResult.failure msg =>
          (s, CheckoutResult.failed msg, some req)
      | SubmissionResult.networkError msg =>
          (s, CheckoutResult.failed msg, some req)

/-- A cart mutation issued by the UI layer. -/
inductive CartOp
  | add (product : Product)
  | remove (productId : String)
  | update (productId : String) (change : ℤ)

/-- Apply one cart mutation (errors only leave the cart unchanged). -/
def applyOp (cart : List CartItem) : CartOp → List CartItem
  | .add p => (addToCart cart p).1
  | .remove pid => removeFromCart cart pid
  | .update pid c => (updateCartItemQuantity cart pid c).1

/-- Apply a sequence of cart mutations from left to right. -/
def applyOps (cart : List CartItem) (ops : List CartOp) : List CartItem :=
  ops.foldl applyOp cart

/-- Guard on an add: a fresh product must carry positive stock, and a
product already carted must not report more stock than the line's
recorded `maxStock` (the source never refreshes `maxStock`). -/
def opOK (cart : List CartItem) : CartOp → Bool
  | .add p =>
      match cart.find? (fun i => i.id == p.id) with
      | some item => decide (p.stock ≤ item.maxStock)
      | none => decide (1 ≤ p.stock)
  | .remove _ => true
  | .update _ _ => true

/-- Guard along a whole op sequence, tracking the evolving cart. -/
def opsOK (cart : List CartItem) : List CartOp → Bool
  | [] => true
  | op :: rest => opOK cart op && opsOK (applyOp cart op) rest

/-- Every line has a positive quantity. -/
def quantitiesPos (cart : List CartItem) : Prop :=
  ∀ i ∈ cart, 0 < i.quantity

/-- Every line's quantity is within its recorded stock ceiling. -/
def quantitiesBounded (cart : List CartItem) : Prop :=
  ∀ i ∈ cart, i.quantity ≤ i.maxStock

/-- No two lines share a product id. -/
def idsNodup (cart : List CartItem) : Prop :=
  (cart.map (fun i => i.id)).Nodup

/-- Sample cart line used in concrete witnesses. -/
def demoItem : CartItem :=
  { id := "lip01", name := "Lipstick", price := 10, quantity := 1, maxStock := 5 }

/-- Sample state with one line, card payment, used in concrete witnesses. -/
def demoState : POSState :=
  { cart := [demoItem], discount := 0, cashReceived := 0,
    paymentMethod := PaymentMethod.card, customerId := "" }

/-- Submission collaborator that always reports success. -/
def demoOK : TransactionRequest → SubmissionResult :=
  fun _ => SubmissionResult.success 0

/-- Submission collaborator that always reports a server-side rejection. -/
def demoFail : TransactionRequest → SubmissionResult :=
  fun _ => SubmissionResult.failure "server rejected"

/-- Sample guarded op sequence used in concrete witnesses. -/
def demoOps : List CartOp :=
  [CartOp.add { id := "lip01", name := "Lipstick", price := 10, stock := 2 },
   CartOp.add { id := "lip01", name := "Lipstick", price := 10, stock := 2 },
   CartOp.update "lip01" (-1),
   CartOp.remove "lip01"]

/-! Helper lemmas about `List.find?` and `updateFirst`. -/

theorem find?_eq_some_split {α : Type} {p : α → Bool} {l : List α} {a : α}
    (h : l.find? p = some a) :
    ∃ pre post, l = pre ++ a :: post ∧ (∀ x ∈ pre, p x = false) ∧ p a = true := by
  induction l with
  | nil => simp [List.find?] at h
  | cons x xs ih =>
      by_cases hx : p x = true
      · rw [List.find?_cons_of_pos _ hx] at h
        cases h
        exact ⟨[], xs, rfl, by simp, hx⟩
      · rw [List.find?_cons_of_neg _ (by simpa using hx)] at h
        obtain ⟨pre, post, hl, hpre, ha⟩ := ih h
        refine ⟨x :: pre, post, by rw [hl]; rfl, ?_, ha⟩
        intro y hy
        rcases List.mem_cons.mp hy with hy | hy
        · subst hy; simpa using hx
        · exact hpre y hy

theorem updateFirst_split {α : Type} (p : α → Bool) (f : α → α) (pre post : List α) (a : α)
    (hpre : ∀ x ∈ pre, p x = false) (ha : p a = true) :
    updateFirst p f (pre ++ a :: post) = pre ++ f a :: post := by
  induction pre with
  | nil => simp [updateFirst, ha]
  | cons x xs ih =>
      have hx : p x = false := hpre x (by simp)
      simp only [List.cons_append, updateFirst, List.append_eq]
      rw [if_neg (by simp [hx]), ih (fun y hy => hpre y (by simp [hy]))]

/-! Case equations for `addToCart`. -/

theorem addToCart_of_find?_none (cart : List CartItem) (p : Product)
    (h : cart.find? (fun i => i.id == p.id) = none) :
    addToCart cart p
      = (cart ++ [{ id := p.id, name := p.name, price := p.price,
                    quantity := 1, maxStock := p.stock }], none) := by
  unfold addToCart
  rw [h]

theorem addToCart_of_find?_some_lt (cart : List CartItem) (p : Product) (item : CartItem)
    (h : cart.find? (fun i => i.id == p.id) = some item)
    (hlt : item.quantity < p.stock) :
    addToCart cart p
      = (updateFirst (fun i => i.id == p.id)
          (fun i => { i with quantity := i.quantity + 1 }) cart, none) := by
  unfold addToCart
  rw [h]
  simp [hlt]

theorem addToCart_of_find?_some_ge (cart : List CartItem) (p : Product) (item : CartItem)
    (h : cart.find? (fun i => i.id == p.id) = some item)
    (hge : p.stock ≤ item.quantity) :
    addToCart cart p = (cart, some PosError.InsufficientStock) := by
  unfold addToCart
  rw [h]
  simp [not_lt.mpr hge]

theorem addToCart_increment_decomp (cart : List CartItem) (p : Product) (item : CartItem)
    (hfind : cart.find? (fun i => i.id == p.id) = some item)
    (hlt : item.quantity < p.stock) :
    ∃ pre post, cart = pre ++ item :: post
      ∧ (∀ x ∈ pre, (x.id == p.id) = false)
      ∧ addToCart cart p
          = (pre ++ { item with quantity := item.quantity + 1 } :: post, none) := by
  obtain ⟨pre, post, hl, hpre, ha⟩ := find?_eq_some_split hfind
  refine ⟨pre, post, hl, hpre, ?_⟩
  rw [addToCart_of_find?_some_lt cart p item hfind hlt, hl,
    updateFirst_split _ _ pre post item hpre ha]

/-! Case equations for `updateCartItemQuantity` and `removeFromCart`. -/

theorem updateCartItemQuantity_of_find?_none (cart : List CartItem) (pid : String) (change : ℤ)
    (h : cart.find? (fun i => i.id == pid) = none) :
    updateCartItemQuantity cart pid change = (cart, none) := by
  unfold updateCartItemQuantity
  rw [h]

theorem updateCartItemQuantity_of_nonpos (cart : List CartItem) (pid : String) (change : ℤ)
    (item : CartItem) (h : cart.find? (fun i => i.id == pid) = some item)
    (hq : item.quantity + change ≤ 0) :
    updateCartItemQuantity cart pid change = (removeFromCart cart pid, none) := by
  unfold updateCartItemQuantity
  rw [h]
  simp [hq]

theorem updateCartItemQuantity_of_commit (cart : List CartItem) (pid : String) (change : ℤ)
    (item : CartItem) (h : cart.find? (fun i => i.id == pid) = some item)
    (hq : 0 < item.quantity + change) (hle : item.quantity + change ≤ item.maxStock) :
    updateCartItemQuantity cart pid change
      = (updateFirst (fun i => i.id == pid)
          (fun i => { i with quantity := item.quantity + change }) cart, none) := by
  unfold updateCartItemQuantity
  rw [h]
  simp [not_le.mpr hq, hle]

theorem updateCartItemQuantity_of_over (cart : List CartItem) (pid : String) (change : ℤ)
    (item : CartItem) (h : cart.find? (fun i => i.id == pid) = some item)
    (hq : 0 < item.quantity + change) (hover : item.maxStock < item.quantity + change) :
    updateCartItemQuantity cart pid change = (cart, some PosError.InsufficientStock) := by
  unfold updateCartItemQuantity
  rw [h]
  simp [not_le.mpr hq, not_le.mpr hover]

theorem updateCartItemQuantity_commit_decomp (cart : List CartItem) (pid : String) (change : ℤ)
    (item : CartItem) (hfind : cart.find? (fun i => i.id == pid) = some item)
    (hq : 0 < item.quantity + change) (hle : item.quantity + change ≤ item.maxStock) :
    ∃ pre post, cart = pre ++ item :: post
      ∧ (∀ x ∈ pre, (x.id == pid) = false)
      ∧ updateCartItemQuantity cart pid change
          = (pre ++ { item with quantity := item.quantity + change } :: post, none) := by
  obtain ⟨pre, post, hl, hpre, ha⟩ := find?_eq_some_split hfind
  refine ⟨pre, post, hl, hpre, ?_⟩
  rw [updateCartItemQuantity_of_commit cart pid change item hfind hq hle, hl,
    updateFirst_split _ _ pre post item hpre ha]

theorem mem_removeFromCart (cart : List CartItem) (pid : String) (i : CartItem) :
    i ∈ removeFromCart cart pid ↔ i ∈ cart ∧ ¬ i.id = pid := by
  simp [removeFromCart, List.mem_filter, bne_iff_ne]

/-! Preservation of the cart invariants by each operation. -/

theorem idsNodup_addToCart (cart : List CartItem) (p : Product) (h : idsNodup cart) :
    idsNodup (addToCart cart p).1 := by
  cases hfind : cart.find? (fun i => i.id == p.id) with
  | none =>
      rw [addToCart_of_find?_none cart p hfind]
      unfold idsNodup at h ⊢
      rw [List.map_append]
      refine List.Nodup.append h (by simp) ?_
      intro x hx hx2
      simp only [List.map_cons, List.map_nil, List.mem_singleton] at hx2
      obtain ⟨i, hi, hix⟩ := List.mem_map.mp hx
      have hne := List.find?_eq_none.mp hfind i hi
      rw [hix, hx2] at hne
      simp at hne
  | some item =>
      by_cases hlt : item.quantity < p.stock
      · obtain ⟨pre, post, hcart, hpre, heq⟩ := addToCart_increment_decomp cart p item hfind hlt
        rw [heq]
        unfold idsNodup at h ⊢
        rw [hcart] at h
        simpa using h
      · rw [addToCart_of_find?_some_ge cart p item hfind (not_lt.mp hlt)]
        exact h

theorem idsNodup_removeFromCart (cart : List CartItem) (pid : String) (h : idsNodup cart) :
    idsNodup (removeFromCart cart pid) :=
  List.Nodup.sublist (List.Sublist.map _ (List.filter_sublist cart)) h

theorem idsNodup_updateCartItemQuantity (cart : List CartItem) (pid : String) (change : ℤ)
    (h : idsNodup cart) : idsNodup (updateCartItemQuantity cart pid change).1 := by
  cases hfind : cart.find? (fun i => i.id == pid) with
  | none =>
      rw [updateCartItemQuantity_of_find?_none cart pid change hfind]
      exact h
  | some item =>
      by_cases hq : item.quantity + change ≤ 0
      · rw [updateCartItemQuantity_of_nonpos cart pid change item hfind hq]
        exact idsNodup_removeFromCart cart pid h
      · by_cases hle : item.quantity + change ≤ item.maxStock
        · obtain ⟨pre, post, hcart, hpre, heq⟩ :=
            updateCartItemQuantity_commit_decomp cart pid change item hfind (not_le.mp hq) hle
          rw [heq]
          unfold idsNodup at h ⊢
          rw [hcart] at h
          simpa using h
        · rw [updateCartItemQuantity_of_over cart pid change item hfind (not_le.mp hq)
            (not_le.mp hle)]
          exact h

theorem quantitiesPos_addToCart (cart : List CartItem) (p : Product) (h : quantitiesPos cart) :
    quantitiesPos (addToCart cart p).1 := by
  cases hfind : cart.find? (fun i => i.id == p.id) with
  | none =>
      rw [addToCart_of_find?_none cart p hfind]
      intro i hi
      rcases List.mem_append.mp hi with hi | hi
      · exact h i hi
      · simp only [List.mem_singleton] at hi
        rw [hi]
        exact Int.zero_lt_one
  | some item =>
      by_cases hlt : item.quantity < p.stock
      · obtain ⟨pre, post, hcart, hpre, heq⟩ := addToCart_increment_decomp cart p item hfind hlt
        rw [heq]
        have hitem : 0 < item.quantity := h item (by rw [hcart]; simp)
        intro i hi
        rcases List.mem_append.mp hi with hi | hi
        · exact h i (by rw [hcart]; exact List.mem_append.mpr (Or.inl hi))
        · rcases List.mem_cons.mp hi with hi | hi
          · rw [hi]; simpa using by omega
          · exact h i (by rw [hcart]; exact List.mem_append.mpr (Or.inr (List.mem_cons.mpr
              (Or.inr hi))))
      · rw [addToCart_of_find?_some_ge cart p item hfind (not_lt.mp hlt)]
        exact h

theorem quantitiesPos_removeFromCart (cart : List CartItem) (pid : String)
    (h : quantitiesPos cart) : quantitiesPos (removeFromCart cart pid) := by
  intro i hi
  exact h i ((mem_removeFromCart cart pid i).mp hi).1

theorem quantitiesPos_updateCartItemQuantity (cart : List CartItem) (pid : String) (change : ℤ)
    (h : quantitiesPos cart) : quantitiesPos (updateCartItemQuantity cart pid change).1 := by
  cases hfind : cart.find? (fun i => i.id == pid) with
  | none =>
      rw [updateCartItemQuantity_of_find?_none cart pid change hfind]
      exact h
  | some item =>
      by_cases hq : item.quantity + change ≤ 0
      · rw [updateCartItemQuantity_of_nonpos cart pid change item hfind hq]
        exact quantitiesPos_removeFromCart cart pid h
      · by_cases hle : item.quantity + change ≤ item.maxStock
        · obtain ⟨pre, post, hcart, hpre, heq⟩ :=
            updateCartItemQuantity_commit_decomp cart pid change item hfind (not_le.mp hq) hle
          rw [heq]
          intro i hi
          rcases List.mem_append.mp hi with hi | hi
          · exact h i (by rw [hcart]; exact List.mem_append.mpr (Or.inl hi))
          · rcases List.mem_cons.mp hi with hi | hi
            · rw [hi]; simpa using not_le.mp hq
            · exact h i (by rw [hcart]; exact List.mem_append.mpr (Or.inr (List.mem_cons.mpr
                (Or.inr hi))))
        · rw [updateCartItemQuantity_of_over cart pid change item hfind (not_le.mp hq)
            (not_le.mp hle)]
          exact h

theorem quantitiesBounded_addToCart (cart : List CartItem) (p : Product)
    (h : quantitiesBounded cart) (hok : opOK cart (CartOp.add p) = true) :
    quantitiesBounded (addToCart cart p).1 := by
  cases hfind : cart.find? (fun i => i.id == p.id) with
  | none =>
      have hstock : (1 : ℤ) ≤ p.stock := by simpa [opOK, hfind] using hok
      rw [addToCart_of_find?_none cart p hfind]
      intro i hi
      rcases List.mem_append.mp hi with hi | hi
      · exact h i hi
      · simp only [List.mem_singleton] at hi
        rw [hi]
        exact hstock
  | some item =>
      have hmax : p.stock ≤ item.maxStock := by simpa [opOK, hfind] using hok
      by_cases hlt : item.quantity < p.stock
      · obtain ⟨pre, post, hcart, hpre, heq⟩ := addToCart_increment_decomp cart p item hfind hlt
        rw [heq]
        intro i hi
        rcases List.mem_append.mp hi with hi | hi
        · exact h i (by rw [hcart]; exact List.mem_append.mpr (Or.inl hi))
        · rcases List.mem_cons.mp hi with hi | hi
          · rw [hi]
            simp only
            omega
          · exact h i (by rw [hcart]; exact List.mem_append.mpr (Or.inr (List.mem_cons.mpr
              (Or.inr hi))))
      · rw [addToCart_of_find?_some_ge cart p item hfind (not_lt.mp hlt)]
        exact h

theorem quantitiesBounded_removeFromCart (cart : List CartItem) (pid : String)
    (h : quantitiesBounded cart) : quantitiesBounded (removeFromCart cart pid) := by
  intro i hi
  exact h i ((mem_removeFromCart cart pid i).mp hi).1

theorem quantitiesBounded_updateCartItemQuantity (cart : List CartItem) (pid : String)
    (change : ℤ) (h : quantitiesBounded cart) :
    quantitiesBounded (updateCartItemQuantity cart pid change).1 := by
  cases hfind : cart.find? (fun i => i.id == pid) with
  | none =>
      rw [updateCartItemQuantity_of_find?_none cart pid change hfind]
      exact h
  | some item =>
      by_cases hq : item.quantity + change ≤ 0
      · rw [updateCartItemQuantity_of_nonpos cart pid change item hfind hq]
        exact quantitiesBounded_removeFromCart cart pid h
      · by_cases hle : item.quantity + change ≤ item.maxStock
        · obtain ⟨pre, post, hcart, hpre, heq⟩ :=
            updateCartItemQuantity_commit_decomp cart pid change item hfind (not_le.mp hq) hle
          rw [heq]
          intro i hi
          rcases List.mem_append.mp hi with hi | hi
          · exact h i (by rw [hcart]; exact List.mem_append.mpr (Or.inl hi))
          · rcases List.mem_cons.mp hi with hi | hi
            · rw [hi]
              simpa using hle
            · exact h i (by rw [hcart]; exact List.mem_append.mpr (Or.inr (List.mem_cons.mpr
                (Or.inr hi))))
        · rw [updateCartItemQuantity_of_over cart pid change item hfind (not_le.mp hq)
            (not_le.mp hle)]
          exact h

theorem idsNodup_applyOp (cart : List CartItem) (op : CartOp) (h : idsNodup cart) :
    idsNodup (applyOp cart op) := by
  cases op with
  | add p => exact idsNodup_addToCart cart p h
  | remove pid => exact idsNodup_removeFromCart cart pid h
  | update pid c => exact idsNodup_updateCartItemQuantity cart pid c h

theorem quantitiesPos_applyOp (cart : List CartItem) (op : CartOp) (h : quantitiesPos cart) :
    quantitiesPos (applyOp cart op) := by
  cases op with
  | add p => exact quantitiesPos_addToCart cart p h
  | remove pid => exact quantitiesPos_removeFromCart cart pid h
  | update pid c => exact quantitiesPos_updateCartItemQuantity cart pid c h

theorem quantitiesBounded_applyOp (cart : List CartItem) (op : CartOp)
    (h : quantitiesBounded cart) (hok : opOK cart op = true) :
    quantitiesBounded (applyOp cart op) := by
  cases op with
  | add p => exact quantitiesBounded_addToCart cart p h hok
  | remove pid => exact quantitiesBounded_removeFromCart cart pid h
  | update pid c => exact quantitiesBounded_updateCartItemQuantity cart pid c h

theorem idsNodup_applyOps (ops : List CartOp) (cart : List CartItem) (h : idsNodup cart) :
    idsNodup (applyOps cart ops) := by
  induction ops generalizing cart with
  | nil => exact h
  | cons op rest ih => exact ih (applyOp cart op) (idsNodup_applyOp cart op h)

theorem quantitiesPos_applyOps (ops : List CartOp) (cart : List CartItem)
    (h : quantitiesPos cart) : quantitiesPos (applyOps cart ops) := by
  induction ops generalizing cart with
  | nil => exact h
  | cons op rest ih => exact ih (applyOp cart op) (quantitiesPos_applyOp cart op h)

theorem quantitiesBounded_applyOps (ops : List CartOp) (cart : List CartItem)
    (h : quantitiesBounded cart) (hok : opsOK cart ops = true) :
    quantitiesBounded (applyOps cart ops) := by
  induction ops generalizing cart with
  | nil => exact h
  | cons op rest ih =>
      rcases Bool.and_eq_true_iff.mp hok with ⟨hok1, hok2⟩
      exact ih (applyOp cart op) (quantitiesBounded_applyOp cart op h hok1) hok2

/-! Case equations for `checkout`. -/

theorem checkout_of_empty (s : POSState) (taxRate : ℚ) (staffName : String)
    (respond : TransactionRequest → SubmissionResult) (h : s.cart.length = 0) :
    checkout s taxRate staffName respond
      = (s, CheckoutResult.validationError PosError.EmptyCart, none) := by
  unfold checkout
  rw [if_pos h]

theorem checkout_of_insufficient (s : POSState) (taxRate : ℚ) (staffName : String)
    (respond : TransactionRequest → SubmissionResult) (h0 : ¬ s.cart.length = 0)
    (h1 : s.paymentMethod = PaymentMethod.cash ∧
      (if s.paymentMethod = PaymentMethod.cash then s.cashReceived else 0)
        < calculateTotal s.cart s.discount taxRate) :
    checkout s taxRate staffName respond
      = (s, CheckoutResult.validationError PosError.InsufficientFunds, none) := by
  unfold checkout
  rw [if_neg h0]
  simp only [if_pos h1]

theorem checkout_of_success (s : POSState) (taxRate : ℚ) (staffName : String)
    (respond : TransactionRequest → SubmissionResult) (h0 : ¬ s.cart.length = 0)
    (h1 : ¬ (s.paymentMethod = PaymentMethod.cash ∧
      (if s.paymentMethod = PaymentMethod.cash then s.cashReceived else 0)
        < calculateTotal s.cart s.discount taxRate))
    (c : ℚ)
    (hres : respond (buildTransactionRequest s taxRate staffName)
      = SubmissionResult.success c) :
    checkout s taxRate staffName respond
      = (clearCart s, CheckoutResult.completed c,
         some (buildTransactionRequest s taxRate staffName)) := by
  unfold checkout
  rw [if_neg h0]
  simp only [if_neg h1, hres]

theorem checkout_of_failure (s : POSState) (taxRate : ℚ) (staffName : String)
    (respond : TransactionRequest → SubmissionResult) (h0 : ¬ s.cart.length = 0)
    (h1 : ¬ (s.paymentMethod = PaymentMethod.cash ∧
      (if s.paymentMethod = PaymentMethod.cash then s.cashReceived else 0)
        < calculateTotal s.cart s.discount taxRate))
    (m : String)
    (hres : respond (buildTransactionRequest s taxRate staffName)
      = SubmissionResult.failure m) :
    checkout s taxRate staffName respond
      = (s, CheckoutResult.failed m,
         some (buildTransactionRequest s taxRate staffName)) := by
  unfold checkout
  rw [if_neg h0]
  simp only [if_neg h1, hres]

theorem checkout_of_networkError (s : POSState) (taxRate : ℚ) (staffName : String)
    (respond : TransactionRequest → SubmissionResult) (h0 : ¬ s.cart.length = 0)
    (h1 : ¬ (s.paymentMethod = PaymentMethod.cash ∧
      (if s.paymentMethod = PaymentMethod.cash then s.cashReceived else 0)
        < calculateTotal s.cart s.discount taxRate))
    (m : String)
    (hres : respond (buildTransactionRequest s taxRate staffName)
      = SubmissionResult.networkError m) :
    checkout s taxRate staffName respond
      = (s, CheckoutResult.failed m,
         some (buildTransactionRequest s taxRate staffName)) := by
  unfold checkout
  rw [if_neg h0]
  simp only [if_neg h1, hres]

/-! Claim theorems. -/

/-- C1: checkout() clears the cart if and only if the submitted transaction
reports success; on any submission failure (network error or a response
with success = false) the state, and in particular the cart's line items,
is exactly as before the attempt. -/
theorem checkout_clears_cart_iff_success (s : POSState) (taxRate : ℚ) (staffName : String)
    (respond : TransactionRequest → SubmissionResult) (req : TransactionRequest)
    (hsub : (checkout s taxRate staffName respond).2.2 = some req) :
    ((checkout s taxRate staffName respond).1.cart = [] ↔ (respond req).isSuccess = true)
    ∧ ((respond req).isSuccess = false → (checkout s taxRate staffName respond).1 = s) := by
  by_cases h0 : s.cart.length = 0
  · rw [checkout_of_empty s taxRate staffName respond h0] at hsub
    simp at hsub
  · by_cases h1 : s.paymentMethod = PaymentMethod.cash ∧
        (if s.paymentMethod = PaymentMethod.cash then s.cashReceived else 0)
          < calculateTotal s.cart s.discount taxRate
    · rw [checkout_of_insufficient s taxRate staffName respond h0 h1] at hsub
      simp at hsub
    · have hcart : ¬ s.cart = [] := fun hc => h0 (by rw [hc]; rfl)
      cases hres : respond (buildTransactionRequest s taxRate staffName) with
      | success c =>
          have heq := checkout_of_success s taxRate staffName respond h0 h1 c hres
          rw [heq] at hsub ⊢
          simp only [Option.some.injEq] at hsub
          subst hsub
          rw [hres]
          exact ⟨by simp [clearCart, SubmissionResult.isSuccess],
            fun hfalse => by simp [SubmissionResult.isSuccess] at hfalse⟩
      | failure m =>
          have heq := checkout_of_failure s taxRate staffName respond h0 h1 m hres
          rw [heq] at hsub ⊢
          simp only [Option.some.injEq] at hsub
          subst hsub
          rw [hres]
          exact ⟨by simp [SubmissionResult.isSuccess, hcart], fun _ => rfl⟩
      | networkError m =>
          have heq := checkout_of_networkError s taxRate staffName respond h0 h1 m hres
          rw [heq] at hsub ⊢
          simp only [Option.some.injEq] at hsub
          subst hsub
          rw [hres]
          exact ⟨by simp [SubmissionResult.isSuccess, hcart], fun _ => rfl⟩

/-- C1 witness: a concrete successful checkout empties the cart. -/
theorem checkout_clears_cart_iff_success_witness :
    ((checkout demoState (8/100) "Staff" demoOK).1.cart = []
      ↔ (demoOK (buildTransactionRequest demoState (8/100) "Staff")).isSuccess = true)
    ∧ ((demoOK (buildTransactionRequest demoState (8/100) "Staff")).isSuccess = false →
        (checkout demoState (8/100) "Staff" demoOK).1 = demoState) :=
  checkout_clears_cart_iff_success demoState (8/100) "Staff" demoOK
    (buildTransactionRequest demoState (8/100) "Staff") rfl

/-- C2 counterexample: with one line of price 10 and quantity 2
(subtotal 20) and discount 25, the code computes a nonzero tax and a
strictly negative total, so the claimed clamping to zero does not hold. -/
theorem totals_negative_when_discount_exceeds_subtotal :
    subtotal [{ id := "a", name := "Apple", price := 10, quantity := 2, maxStock := 5 }] = 20
    ∧ (computeTotals [{ id := "a", name := "Apple", price := 10, quantity := 2, maxStock := 5 }]
        25 (8/100)).2.1 ≠ 0
    ∧ (computeTotals [{ id := "a", name := "Apple", price := 10, quantity := 2, maxStock := 5 }]
        25 (8/100)).2.2 < 0 := by
  refine ⟨?_, ?_, ?_⟩ <;> norm_num [computeTotals, subtotal]

/-- C2 amended: the totals computation uses the unclamped taxable amount
subtotal − discount, so tax = (subtotal − discount)·taxRate and
total = (subtotal − discount)·(1 + taxRate); whenever discount > subtotal
(and the tax rate is nonnegative) the tax is ≤ 0 and the total is
strictly negative. -/
theorem computeTotals_unclamped (cart : List CartItem) (discount taxRate : ℚ) :
    computeTotals cart discount taxRate
      = (subtotal cart, (subtotal cart - discount) * taxRate,
         (subtotal cart - discount) * (1 + taxRate))
    ∧ calculateTotal cart discount taxRate = (subtotal cart - discount) * (1 + taxRate)
    ∧ (0 ≤ taxRate → subtotal cart < discount →
        (computeTotals cart discount taxRate).2.1 ≤ 0
        ∧ (computeTotals cart discount taxRate).2.2 < 0) := by
  have h1 : computeTotals cart discount taxRate
      = (subtotal cart, (subtotal cart - discount) * taxRate,
         (subtotal cart - discount) * (1 + taxRate)) := by
    show (subtotal cart, (subtotal cart - discount) * taxRate,
      subtotal cart - discount + (subtotal cart - discount) * taxRate) = _
    rw [Prod.mk.injEq, Prod.mk.injEq]
    exact ⟨rfl, rfl, by ring⟩
  refine ⟨h1, by unfold calculateTotal; ring, ?_⟩
  intro hrate hdisc
  rw [h1]
  constructor
  · show (subtotal cart - discount) * taxRate ≤ 0
    exact mul_nonpos_iff.mpr (Or.inr ⟨by linarith, hrate⟩)
  · show (subtotal cart - discount) * (1 + taxRate) < 0
    exact mul_neg_of_neg_of_pos (by linarith) (by linarith)

/-- C2 witness: at the concrete cart with subtotal 20, discount 25 and
tax rate 8/100, the computed tax is nonpositive and the total negative. -/
theorem computeTotals_unclamped_witness :
    (computeTotals [{ id := "a", name := "Apple", price := 10, quantity := 2, maxStock := 5 }]
      25 (8/100)).2.1 ≤ 0
    ∧ (computeTotals [{ id := "a", name := "Apple", price := 10, quantity := 2, maxStock := 5 }]
      25 (8/100)).2.2 < 0 :=
  (computeTotals_unclamped
    [{ id := "a", name := "Apple", price := 10, quantity := 2, maxStock := 5 }]
    25 (8/100)).2.2 (by norm_num) (by norm_num [subtotal])

/-- C3 counterexample: a single addItem of a product whose snapshot has
stock 0 leaves a line with quantity 1 and maxStock 0, violating
quantity ≤ maxStock. -/
theorem cart_invariant_fails_zero_stock_add :
    ¬ quantitiesBounded (applyOps []
        [CartOp.add { id := "glos1", name := "Gloss", price := 8, stock := 0 }]) := by
  unfold quantitiesBounded applyOps
  decide

/-- C3 amended: for every op sequence from the empty cart, every remaining
line has positive quantity and product ids stay unique; quantity ≤ maxStock
additionally holds provided every add of a product not in the cart carries
stock ≥ 1 and every add of an already-carted product reports stock at most
the line's recorded maxStock (the source never refreshes maxStock). -/
theorem cart_invariant_guarded (ops : List CartOp) :
    idsNodup (applyOps [] ops) ∧ quantitiesPos (applyOps [] ops)
    ∧ (opsOK [] ops = true → quantitiesBounded (applyOps [] ops)) :=
  ⟨idsNodup_applyOps ops [] (by simp [idsNodup]),
   quantitiesPos_applyOps ops [] (fun i hi => absurd hi (List.not_mem_nil i)),
   fun hok =>
     quantitiesBounded_applyOps ops [] (fun i hi => absurd hi (List.not_mem_nil i)) hok⟩

/-- C3 witness: a concrete guarded op sequence keeps every line within
its stock ceiling. -/
theorem cart_invariant_guarded_witness :
    opsOK [] demoOps = true ∧ quantitiesBounded (applyOps [] demoOps) :=
  ⟨by decide, (cart_invariant_guarded demoOps).2.2 (by decide)⟩

/-- C4: addItem never creates a second line for a product id already in
the cart: with an existing line and quantity < stock it bumps exactly that
line's quantity by 1 (appending nothing); with quantity ≥ stock it fails
with InsufficientStock leaving the cart unchanged; with no existing line
it appends a line with quantity 1 and maxStock = product.stock. -/
theorem addToCart_spec (cart : List CartItem) (p : Product) :
    (cart.find? (fun i => i.id == p.id) = none →
      addToCart cart p = (cart ++ [{ id := p.id, name := p.name, price := p.price,
                                     quantity := 1, maxStock := p.stock }], none))
    ∧ (∀ item, cart.find? (fun i => i.id == p.id) = some item →
        (item.quantity < p.stock →
          ∃ pre post, cart = pre ++ item :: post
            ∧ (∀ x ∈ pre, (x.id == p.id) = false)
            ∧ addToCart cart p
                = (pre ++ { item with quantity := item.quantity + 1 } :: post, none))
        ∧ (p.stock ≤ item.quantity →
          addToCart cart p = (cart, some PosError.InsufficientStock))) :=
  ⟨addToCart_of_find?_none cart p,
   fun item hfind =>
     ⟨fun hlt => addToCart_increment_decomp cart p item hfind hlt,
      fun hge => addToCart_of_find?_some_ge cart p item hfind hge⟩⟩

/-- C4 witness: a first add of a concrete in-stock product appends one
line with quantity 1. -/
theorem addToCart_spec_witness :
    addToCart [] { id := "a", name := "Apple", price := 10, stock := 3 }
      = ([] ++ [{ id := "a", name := "Apple", price := 10, quantity := 1, maxStock := 3 }],
         none) :=
  (addToCart_spec [] { id := "a", name := "Apple", price := 10, stock := 3 }).1 rfl

/-- C5: updateQuantity is a no-op without error when the product id has no
line; otherwise with newQuantity = quantity + delta it removes the line
entirely when newQuantity ≤ 0, commits the new quantity when
0 < newQuantity ≤ maxStock, and fails with InsufficientStock leaving the
cart unchanged when newQuantity exceeds maxStock. -/
theorem updateCartItemQuantity_spec (cart : List CartItem) (pid : String) (change : ℤ) :
    (cart.find? (fun i => i.id == pid) = none →
      updateCartItemQuantity cart pid change = (cart, none))
    ∧ (∀ item, cart.find? (fun i => i.id == pid) = some item →
        (item.quantity + change ≤ 0 →
          updateCartItemQuantity cart pid change = (removeFromCart cart pid, none)
          ∧ ∀ i ∈ (updateCartItemQuantity cart pid change).1, ¬ i.id = pid)
        ∧ (0 < item.quantity + change → item.quantity + change ≤ item.maxStock →
          ∃ pre post, cart = pre ++ item :: post
            ∧ updateCartItemQuantity cart pid change
                = (pre ++ { item with quantity := item.quantity + change } :: post, none))
        ∧ (0 < item.quantity + change → item.maxStock < item.quantity + change →
          updateCartItemQuantity cart pid change = (cart, some PosError.InsufficientStock))) := by
  refine ⟨updateCartItemQuantity_of_find?_none cart pid change, fun item hfind => ⟨?_, ?_, ?_⟩⟩
  · intro hq
    refine ⟨updateCartItemQuantity_of_nonpos cart pid change item hfind hq, ?_⟩
    rw [updateCartItemQuantity_of_nonpos cart pid change item hfind hq]
    intro i hi
    exact ((mem_removeFromCart cart pid i).mp hi).2
  · intro h0 hle
    obtain ⟨pre, post, hcart, hpre, heq⟩ :=
      updateCartItemQuantity_commit_decomp cart pid change item hfind h0 hle
    exact ⟨pre, post, hcart, heq⟩
  · intro h0 hover
    exact updateCartItemQuantity_of_over cart pid change item hfind h0 hover

/-- C5 witness: on a cart without the product id, updateQuantity changes
nothing and raises no error. -/
theorem updateCartItemQuantity_spec_witness :
    updateCartItemQuantity [] "missing" 1 = ([], none) :=
  (updateCartItemQuantity_spec [] "missing" 1).1 rfl

/-- C6: checkout() fails with EmptyCart on a cart with no lines, and with
InsufficientFunds on cash payment with cashTendered below the total; in
both cases the state is returned unchanged and no request is submitted. -/
theorem checkout_validation_failures (s : POSState) (taxRate : ℚ) (staffName : String)
    (respond : TransactionRequest → SubmissionResult) :
    (s.cart = [] → checkout s taxRate staffName respond
      = (s, CheckoutResult.validationError PosError.EmptyCart, none))
    ∧ (s.cart ≠ [] → s.paymentMethod = PaymentMethod.cash →
      s.cashReceived < calculateTotal s.cart s.discount taxRate →
      checkout s taxRate staffName respond
        = (s, CheckoutResult.validationError PosError.InsufficientFunds, none)) := by
  constructor
  · intro h
    exact checkout_of_empty s taxRate staffName respond (by rw [h]; rfl)
  · intro h hcash hlt
    refine checkout_of_insufficient s taxRate staffName respond
      (fun hlen => h (List.eq_nil_of_length_eq_zero hlen)) ⟨hcash, ?_⟩
    rw [if_pos hcash]
    exact hlt

/-- C6 witness: checkout on a concrete empty cart fails with EmptyCart,
submits nothing and leaves the state unchanged. -/
theorem checkout_validation_failures_witness :
    checkout { cart := [], discount := 0, cashReceived := 0,
               paymentMethod := PaymentMethod.cash, customerId := "" } (8/100) "Staff" demoOK
      = ({ cart := [], discount := 0, cashReceived := 0,
           paymentMethod := PaymentMethod.cash, customerId := "" },
         CheckoutResult.validationError PosError.EmptyCart, none) :=
  (checkout_validation_failures
    { cart := [], discount := 0, cashReceived := 0,
      paymentMethod := PaymentMethod.cash, customerId := "" } (8/100) "Staff" demoOK).1 rfl

/-- C7 counterexample: a first add of a product with stock 0 is not
rejected: it creates a line with quantity 1 and maxStock 0. -/
theorem addToCart_zero_stock_creates_line :
    addToCart [] { id := "oos1", name := "Sold Out", price := 4, stock := 0 }
      = ([{ id := "oos1", name := "Sold Out", price := 4, quantity := 1, maxStock := 0 }],
         none) := by
  decide

/-- C7 amended: the engine has no stock guard of its own on a first add
(only the caller filters out-of-stock products): for stock ≤ 0 it appends
a line with quantity 1 and maxStock = stock; only a subsequent add of the
same product id is rejected with InsufficientStock. -/
theorem addToCart_no_engine_stock_guard (cart : List CartItem) (p : Product)
    (hstock : p.stock ≤ 0) :
    (cart.find? (fun i => i.id == p.id) = none →
      addToCart cart p = (cart ++ [{ id := p.id, name := p.name, price := p.price,
                                     quantity := 1, maxStock := p.stock }], none))
    ∧ (∀ item, cart.find? (fun i => i.id == p.id) = some item → 0 < item.quantity →
        addToCart cart p = (cart, some PosError.InsufficientStock)) :=
  ⟨addToCart_of_find?_none cart p,
   fun item hfind hq => addToCart_of_find?_some_ge cart p item hfind (by omega)⟩

/-- C7 witness: a concrete zero-stock product is appended as a fresh line
instead of being rejected. -/
theorem addToCart_no_engine_stock_guard_witness :
    addToCart [] { id := "oos2", name := "Empty", price := 6, stock := 0 }
      = ([] ++ [{ id := "oos2", name := "Empty", price := 6, quantity := 1, maxStock := 0 }],
         none) :=
  (addToCart_no_engine_stock_guard [] { id := "oos2", name := "Empty", price := 6, stock := 0 }
    (by decide)).1 rfl

/-- C8 counterexample: incrementing an existing line (quantity 1, maxStock
1) with a snapshot reporting stock 5 leaves maxStock at 1; the cart the
claim predicts (maxStock refreshed to 5) is not produced. -/
theorem addToCart_increment_keeps_old_maxStock :
    addToCart [{ id := "a", name := "Apple", price := 10, quantity := 1, maxStock := 1 }]
        { id := "a", name := "Apple", price := 10, stock := 5 }
      = ([{ id := "a", name := "Apple", price := 10, quantity := 2, maxStock := 1 }], none)
    ∧ (addToCart [{ id := "a", name := "Apple", price := 10, quantity := 1, maxStock := 1 }]
        { id := "a", name := "Apple", price := 10, stock := 5 }).1
        ≠ [{ id := "a", name := "Apple", price := 10, quantity := 2, maxStock := 5 }] := by
  decide

/-- C8 amended: a successful increment never touches maxStock: every
line's stored maxStock, set when the line was created, is preserved
unchanged by the add. -/
theorem addToCart_increment_preserves_maxStock (cart : List CartItem) (p : Product)
    (item : CartItem) (hfind : cart.find? (fun i => i.id == p.id) = some item)
    (hlt : item.quantity < p.stock) :
    (addToCart cart p).2 = none
    ∧ (addToCart cart p).1.map (fun i => i.maxStock) = cart.map (fun i => i.maxStock) := by
  obtain ⟨pre, post, hcart, hpre, heq⟩ := addToCart_increment_decomp cart p item hfind hlt
  rw [heq, hcart]
  simp

/-- C8 witness: a concrete successful increment keeps the maxStock column
of the cart unchanged. -/
theorem addToCart_increment_preserves_maxStock_witness :
    (addToCart [demoItem] { id := "lip01", name := "Lipstick", price := 10, stock := 5 }).2
      = none
    ∧ (addToCart [demoItem]
        { id := "lip01", name := "Lipstick", price := 10, stock := 5 }).1.map
          (fun i => i.maxStock)
      = [demoItem].map (fun i => i.maxStock) :=
  addToCart_increment_preserves_maxStock [demoItem]
    { id := "lip01", name := "Lipstick", price := 10, stock := 5 } demoItem
    (by decide) (by decide)

/-- C9 counterexample: clearCart leaves a nonzero discount and a nonzero
cash-received value exactly as they were, so it does not reset them to
zero as claimed. -/
theorem clearCart_keeps_discount :
    (clearCart { cart := [], discount := 5, cashReceived := 3,
                 paymentMethod := PaymentMethod.cash, customerId := "c1" }).discount ≠ 0
    ∧ (clearCart { cart := [], discount := 5, cashReceived := 3,
                   paymentMethod := PaymentMethod.cash, customerId := "c1" }).cashReceived ≠ 0 := by
  constructor <;> decide

/-- C9 amended: clear() empties all cart lines and leaves every checkout
input — discount, cashTendered, paymentMethod and customerId — unchanged. -/
theorem clearCart_frame (s : POSState) :
    (clearCart s).cart = [] ∧ (clearCart s).discount = s.discount
    ∧ (clearCart s).cashReceived = s.cashReceived
    ∧ (clearCart s).paymentMethod = s.paymentMethod
    ∧ (clearCart s).customerId = s.customerId :=
  ⟨rfl, rfl, rfl, rfl, rfl⟩

/-- C9 witness: the frame property evaluated at a concrete state. -/
theorem clearCart_frame_witness :
    (clearCart demoState).cart = [] ∧ (clearCart demoState).discount = demoState.discount
    ∧ (clearCart demoState).cashReceived = demoState.cashReceived
    ∧ (clearCart demoState).paymentMethod = demoState.paymentMethod
    ∧ (clearCart demoState).customerId = demoState.customerId :=
  clearCart_frame demoState

/-- C10 counterexample: from the state a first checkout left in place
while its submission is still in flight, a second checkout() call submits
the transaction request again instead of being rejected with
CheckoutInProgress. -/
theorem checkout_reentrant_submits_again :
    (checkout demoState (8/100) "Staff" demoFail).2.2
      = some (buildTransactionRequest demoState (8/100) "Staff")
    ∧ (checkout demoState (8/100) "Staff" demoFail).2.1
      ≠ CheckoutResult.validationError PosError.CheckoutInProgress := by
  refine ⟨rfl, ?_⟩
  have h : (checkout demoState (8/100) "Staff" demoFail).2.1
      = CheckoutResult.failed "server rejected" := rfl
  rw [h]
  simp

/-- C10 amended: the source has no re-entrancy guard: checkout() never
produces CheckoutInProgress for any state or collaborator, so a repeated
call while a submission is in flight re-validates against the unchanged
cart and issues another request. -/
theorem checkout_never_CheckoutInProgress (s : POSState) (taxRate : ℚ) (staffName : String)
    (respond : TransactionRequest → SubmissionResult) :
    (checkout s taxRate staffName respond).2.1
      ≠ CheckoutResult.validationError PosError.CheckoutInProgress := by
  by_cases h0 : s.cart.length = 0
  · rw [checkout_of_empty s taxRate staffName respond h0]
    simp
  · by_cases h1 : s.paymentMethod = PaymentMethod.cash ∧
        (if s.paymentMethod = PaymentMethod.cash then s.cashReceived else 0)
          < calculateTotal s.cart s.discount taxRate
    · rw [checkout_of_insufficient s taxRate staffName respond h0 h1]
      simp
    · cases hres : respond (buildTransactionRequest s taxRate staffName) with
      | success c =>
          rw [checkout_of_success s taxRate staffName respond h0 h1 c hres]
          simp
      | failure m =>
          rw [checkout_of_failure s taxRate staffName respond h0 h1 m hres]
          simp
      | networkError m =>
          rw [checkout_of_networkError s taxRate staffName respond h0 h1 m hres]
          simp

/-- C10 witness: the no-CheckoutInProgress property evaluated at a
concrete state and collaborator. -/
theorem checkout_never_CheckoutInProgress_witness :
    (checkout demoState (8/100) "Staff" demoOK).2.1
      ≠ CheckoutResult.validationError PosError.CheckoutInProgress :=
  checkout_never_CheckoutInProgress demoState (8/100) "Staff" demoOK

end VelvetPOS
